import Mathlib

/-!
Verification of the adaptive blob-rendering engine (react-blobs-bg).

The definitions below are a shallow embedding of the TypeScript sources:
  - `src/constants` (the `ANIMATION_CONFIG` table),
  - `src/utils/dirty-regions.ts` (`calculateBlobBounds`, `mergeDirtyRegions`),
  - `src/utils/performance-detection.ts` (`detectGPUSimple`),
  - `src/utils/canvas-helpers.ts` (`generateBlobs`),
  - the `qualitySettings` memo and the render-loop effect cleanup of
    `src/components/AnimatedBackground/AnimatedBackground.tsx`.

JavaScript numbers are modelled as rationals (`ℚ`); every arithmetic value
occurring in the verified claims is exactly representable, except where a
division by zero produces NaN, which is modelled explicitly with `Option ℚ`
(`none` = NaN).  Machine integers do not overflow in any relevant range.
-/

namespace BlobsBg

/-- Mirrors `ANIMATION_CONFIG.blobCount` from `src/constants`. -/
structure BlobCountConfig where
  default : ℕ
  low : ℕ
  medium : ℕ
  high : ℕ
deriving DecidableEq

/-- Mirrors `ANIMATION_CONFIG.frameRates` from `src/constants`. -/
structure FrameRatesConfig where
  low : ℕ
  medium : ℕ
  high : ℕ
deriving DecidableEq

/-- Mirrors `ANIMATION_CONFIG.blurAmounts` from `src/constants`. -/
structure BlurAmountsConfig where
  low : ℕ
  medium : ℕ
  high : ℕ
deriving DecidableEq

/-- Mirrors `ANIMATION_CONFIG.scaleRange` from `src/constants`. -/
structure ScaleRangeConfig where
  min : ℚ
  max : ℚ
deriving DecidableEq

/-- Mirrors `ANIMATION_CONFIG.dirtyRegion` from `src/constants`. -/
structure DirtyRegionConfig where
  padding : ℚ
  blobSizeMultiplier : ℚ
  minBlobSize : ℚ
  rotationThresholdDegrees : ℚ
  positionThresholdPixels : ℚ
deriving DecidableEq

/-- Mirrors the `ANIMATION_CONFIG` record from `src/constants`. -/
structure AnimationConfig where
  blobCount : BlobCountConfig
  renderSize : ℕ
  frameRates : FrameRatesConfig
  blurAmounts : BlurAmountsConfig
  resizeDebounceDelayMs : ℕ
  scaleRange : ScaleRangeConfig
  dirtyRegion : DirtyRegionConfig
deriving DecidableEq

/-- The concrete `ANIMATION_CONFIG` constant of `src/constants`. -/
def ANIMATION_CONFIG : AnimationConfig where
  blobCount := { default := 12, low := 6, medium := 9, high := 12 }
  renderSize := 32
  frameRates := { low := 20, medium := 30, high := 60 }
  blurAmounts := { low := 2, medium := 3, high := 4 }
  resizeDebounceDelayMs := 100
  scaleRange := { min := 2/10, max := 17/10 }
  dirtyRegion :=
    { padding := 10
      blobSizeMultiplier := 50
      minBlobSize := 20
      rotationThresholdDegrees := 5
      positionThresholdPixels := 2 }

/-- The `PerformanceTier` union type of `src/types/performance.ts`. -/
inductive PerformanceTier where
  | low
  | medium
  | high
deriving DecidableEq

/-- The `PerformanceSettings` interface of `src/types/performance.ts`:
every field is optional, so each is an `Option`. -/
structure PerformanceSettings where
  performanceTier : Option PerformanceTier := none
  blobCount : Option ℕ := none
  frameRate : Option ℕ := none
  blurAmount : Option ℕ := none
deriving DecidableEq

/-- The record returned by the `qualitySettings` memo in
`AnimatedBackground.tsx` (all three fields always present). -/
structure ResolvedQuality where
  blobCount : ℕ
  frameRate : ℕ
  blurAmount : ℕ
deriving DecidableEq

/-- The `qualitySettings` memo of `AnimatedBackground.tsx` (lines 245-291):
if a `qualitySettings` prop is supplied, each field is taken from it with
`??`-fallbacks (`blobCount ?? numBlobs`, `frameRate ?? frameRates.medium`,
`blurAmount ?? blurAmounts.medium`); otherwise, while tier detection is
loading, medium pacing with the uncapped `numBlobs`; otherwise the
tier switch. -/
def qualitySettings (qualitySettingsProp : Option PerformanceSettings)
    (loading : Bool) (performanceTier : PerformanceTier) (numBlobs : ℕ) :
    ResolvedQuality :=
  match qualitySettingsProp with
  | some p =>
      { blobCount := p.blobCount.getD numBlobs
        frameRate := p.frameRate.getD ANIMATION_CONFIG.frameRates.medium
        blurAmount := p.blurAmount.getD ANIMATION_CONFIG.blurAmounts.medium }
  | none =>
      if loading then
        { blobCount := numBlobs
          frameRate := ANIMATION_CONFIG.frameRates.medium
          blurAmount := ANIMATION_CONFIG.blurAmounts.medium }
      else
        match performanceTier with
        | .low =>
            { blobCount := min ANIMATION_CONFIG.blobCount.low numBlobs
              frameRate := ANIMATION_CONFIG.frameRates.low
              blurAmount := ANIMATION_CONFIG.blurAmounts.low }
        | .medium =>
            { blobCount := min ANIMATION_CONFIG.blobCount.medium numBlobs
              frameRate := ANIMATION_CONFIG.frameRates.medium
              blurAmount := ANIMATION_CONFIG.blurAmounts.medium }
        | .high =>
            { blobCount := numBlobs
              frameRate := ANIMATION_CONFIG.frameRates.high
              blurAmount := ANIMATION_CONFIG.blurAmounts.high }

example : qualitySettings none false .low 12 = ⟨6, 20, 2⟩ := by decide
example : qualitySettings none false .high 4 = ⟨4, 60, 4⟩ := by decide
example : qualitySettings (some {}) false .high 12 = ⟨12, 30, 3⟩ := by decide

/-- The `DirtyRegion` interface of `src/types`: an axis-aligned rectangle. -/
structure DirtyRegion where
  x : ℚ
  y : ℚ
  width : ℚ
  height : ℚ
deriving DecidableEq

/-- The overlap area computed inside the merge loop of `mergeDirtyRegions`
(`src/utils/dirty-regions.ts`, lines 54-64): clamped x-overlap times clamped
y-overlap. -/
def overlapArea (region existing : DirtyRegion) : ℚ :=
  max 0 (min (region.x + region.width) (existing.x + existing.width) -
      max region.x existing.x) *
    max 0 (min (region.y + region.height) (existing.y + existing.height) -
      max region.y existing.y)

/-- The area `width * height` of a region (`regionArea` / `existingArea` in
the merge loop). -/
def regionArea (r : DirtyRegion) : ℚ := r.width * r.height

/-- The merge condition of `mergeDirtyRegions` (line 69): the overlap
exceeds 50% of either region's own area. -/
def shouldMerge (region existing : DirtyRegion) : Prop :=
  overlapArea region existing > regionArea region * (1/2) ∨
    overlapArea region existing > regionArea existing * (1/2)

instance (region existing : DirtyRegion) : Decidable (shouldMerge region existing) :=
  inferInstanceAs (Decidable (_ ∨ _))

/-- The union bounding box written into `merged[i]` on a merge
(`mergeDirtyRegions`, lines 70-79). -/
def unionRegion (region existing : DirtyRegion) : DirtyRegion where
  x := min region.x existing.x
  y := min region.y existing.y
  width := max (region.x + region.width) (existing.x + existing.width) -
    min region.x existing.x
  height := max (region.y + region.height) (existing.y + existing.height) -
    min region.y existing.y

/-- The inner scan of `mergeDirtyRegions` (lines 52-83): walk the `merged`
list, and at the first entry satisfying the merge condition replace it by
the union box and stop (`break`); `none` when no entry matched. -/
def mergeInto (merged : List DirtyRegion) (region : DirtyRegion) :
    Option (List DirtyRegion) :=
  match merged with
  | [] => none
  | existing :: rest =>
      if shouldMerge region existing then
        some (unionRegion region existing :: rest)
      else
        (mergeInto rest region).map (existing :: ·)

/-- One iteration of the outer loop of `mergeDirtyRegions` (lines 49-88):
merge `region` into the first matching entry, else push it at the end. -/
def mergeStep (merged : List DirtyRegion) (region : DirtyRegion) :
    List DirtyRegion :=
  match mergeInto merged region with
  | some merged2 => merged2
  | none => merged ++ [region]

/-- The `mergeDirtyRegions` function of `src/utils/dirty-regions.ts`
(lines 43-91): lists of length at most one are returned unchanged, and
otherwise the regions are folded left-to-right into the `merged`
accumulator, which starts empty. -/
def mergeDirtyRegions (regions : List DirtyRegion) : List DirtyRegion :=
  if regions.length ≤ 1 then regions
  else regions.foldl mergeStep []

example :
    mergeDirtyRegions [⟨0, 0, 4, 4⟩, ⟨1, 1, 4, 4⟩] = [⟨0, 0, 5, 5⟩] := by
  norm_num [mergeDirtyRegions, mergeStep, mergeInto, shouldMerge,
    overlapArea, regionArea, unionRegion]

example :
    mergeDirtyRegions [⟨0, 0, 10, 10⟩, ⟨0, 4, 1000, 6⟩] =
      [⟨0, 0, 1000, 10⟩] := by
  norm_num [mergeDirtyRegions, mergeStep, mergeInto, shouldMerge,
    overlapArea, regionArea, unionRegion]

/-- Swapping the two arguments leaves the overlap area unchanged. -/
theorem overlapArea_comm (a b : DirtyRegion) :
    overlapArea a b = overlapArea b a := by
  unfold overlapArea
  rw [min_comm (a.x + a.width), max_comm a.x, min_comm (a.y + a.height),
    max_comm a.y]

/-- Region `inner` lies inside region `outer` (edge coordinates compared
componentwise). -/
def containsRegion (outer inner : DirtyRegion) : Prop :=
  outer.x ≤ inner.x ∧ outer.y ≤ inner.y ∧
    inner.x + inner.width ≤ outer.x + outer.width ∧
    inner.y + inner.height ≤ outer.y + outer.height

instance (outer inner : DirtyRegion) : Decidable (containsRegion outer inner) :=
  inferInstanceAs (Decidable (_ ∧ _))

theorem containsRegion_refl (r : DirtyRegion) : containsRegion r r :=
  ⟨le_refl _, le_refl _, le_refl _, le_refl _⟩

theorem containsRegion_trans {a b c : DirtyRegion}
    (hab : containsRegion a b) (hbc : containsRegion b c) :
    containsRegion a c :=
  ⟨hab.1.trans hbc.1, hab.2.1.trans hbc.2.1, hbc.2.2.1.trans hab.2.2.1,
    hbc.2.2.2.trans hab.2.2.2⟩

/-- The union box contains its first argument. -/
theorem unionRegion_contains_left (r e : DirtyRegion) :
    containsRegion (unionRegion r e) r := by
  refine ⟨min_le_left _ _, min_le_left _ _, ?_, ?_⟩ <;>
    · unfold unionRegion
      simp only [add_sub_cancel]
      exact le_max_left _ _

/-- The union box contains its second argument. -/
theorem unionRegion_contains_right (r e : DirtyRegion) :
    containsRegion (unionRegion r e) e := by
  refine ⟨min_le_right _ _, min_le_right _ _, ?_, ?_⟩ <;>
    · unfold unionRegion
      simp only [add_sub_cancel]
      exact le_max_right _ _

/-- If the inner scan merges `r` somewhere, every old entry and `r` itself
are contained in some entry of the result. -/
theorem mergeInto_cover (merged : List DirtyRegion) (r : DirtyRegion)
    (merged2 : List DirtyRegion) (h : mergeInto merged r = some merged2) :
    (∀ e ∈ merged, ∃ m ∈ merged2, containsRegion m e) ∧
      ∃ m ∈ merged2, containsRegion m r := by
  induction merged generalizing merged2 with
  | nil => simp [mergeInto] at h
  | cons existing rest ih =>
      rw [mergeInto] at h
      by_cases hsm : shouldMerge r existing
      · rw [if_pos hsm, Option.some.injEq] at h
        subst h
        refine ⟨?_, unionRegion r existing, List.mem_cons_self _ _,
          unionRegion_contains_left r existing⟩
        intro e he
        rcases List.mem_cons.mp he with he | he
        · subst he
          exact ⟨unionRegion r e, List.mem_cons_self _ _,
            unionRegion_contains_right r e⟩
        · exact ⟨e, List.mem_cons_of_mem _ he, containsRegion_refl e⟩
      · rw [if_neg hsm] at h
        rcases Option.map_eq_some'.mp h with ⟨rest2, hrest, hcons⟩
        subst hcons
        rcases ih rest2 hrest with ⟨hold, m, hm, hmr⟩
        refine ⟨?_, m, List.mem_cons_of_mem _ hm, hmr⟩
        intro e he
        rcases List.mem_cons.mp he with he | he
        · subst he
          exact ⟨e, List.mem_cons_self _ _, containsRegion_refl e⟩
        · rcases hold e he with ⟨m2, hm2, hm2e⟩
          exact ⟨m2, List.mem_cons_of_mem _ hm2, hm2e⟩

/-- One outer-loop step keeps every old entry covered and covers the new
region. -/
theorem mergeStep_cover (merged : List DirtyRegion) (r : DirtyRegion) :
    (∀ e ∈ merged, ∃ m ∈ mergeStep merged r, containsRegion m e) ∧
      ∃ m ∈ mergeStep merged r, containsRegion m r := by
  unfold mergeStep
  cases h : mergeInto merged r with
  | some merged2 => exact mergeInto_cover merged r merged2 h
  | none =>
      constructor
      · intro e he
        exact ⟨e, List.mem_append_left _ he, containsRegion_refl e⟩
      · exact ⟨r, List.mem_append_right _ (List.mem_singleton.mpr rfl),
          containsRegion_refl r⟩

/-- Folding the outer loop over any input suffix covers the accumulator's
entries and all regions of the suffix. -/
theorem foldl_mergeStep_cover (l : List DirtyRegion) :
    ∀ acc : List DirtyRegion,
      (∀ e ∈ acc, ∃ m ∈ l.foldl mergeStep acc, containsRegion m e) ∧
        ∀ r ∈ l, ∃ m ∈ l.foldl mergeStep acc, containsRegion m r := by
  induction l with
  | nil => exact fun acc => ⟨fun e he => ⟨e, he, containsRegion_refl e⟩,
      fun r hr => absurd hr (List.not_mem_nil r)⟩
  | cons r l ih =>
      intro acc
      have hstep := mergeStep_cover acc r
      have hrest := ih (mergeStep acc r)
      rw [List.foldl_cons]
      constructor
      · intro e he
        rcases hstep.1 e he with ⟨m1, hm1, hm1e⟩
        rcases hrest.1 m1 hm1 with ⟨m, hm, hmm1⟩
        exact ⟨m, hm, containsRegion_trans hmm1 hm1e⟩
      · intro r2 hr2
        rcases List.mem_cons.mp hr2 with hr2 | hr2
        · subst hr2
          rcases hstep.2 with ⟨m1, hm1, hm1r⟩
          rcases hrest.1 m1 hm1 with ⟨m, hm, hmm1⟩
          exact ⟨m, hm, containsRegion_trans hmm1 hm1r⟩
        · exact hrest.2 r2 hr2

/-- Sum of the areas of a list of regions. -/
def sumArea (l : List DirtyRegion) : ℚ := (l.map regionArea).sum

/-- Claim C1: with no explicit override and detection resolved, resolving
quality settings yields exactly the fixed table: low ↦ (blobCount = min 6 n,
frameRate 20, blur 2), medium ↦ (min 9 n, 30, 3), high ↦ (n, 60, 4). -/
theorem claim_c1_quality_table (n : ℕ) :
    qualitySettings none false .low n = ⟨min 6 n, 20, 2⟩ ∧
      qualitySettings none false .medium n = ⟨min 9 n, 30, 3⟩ ∧
      qualitySettings none false .high n = ⟨n, 60, 4⟩ :=
  ⟨rfl, rfl, rfl⟩

/-- Claim C2: for two regions with non-negative extents whose intersection
area exceeds half of either region's area, the merge pass on `[A, B]`
returns exactly one rectangle, the bounding union of the two. -/
theorem claim_c2_merge_two_overlapping (A B : DirtyRegion)
    (hA : 0 ≤ A.width ∧ 0 ≤ A.height) (hB : 0 ≤ B.width ∧ 0 ≤ B.height)
    (hover : overlapArea A B > regionArea A * (1/2) ∨
      overlapArea A B > regionArea B * (1/2)) :
    mergeDirtyRegions [A, B] =
      [⟨min A.x B.x, min A.y B.y,
        max (A.x + A.width) (B.x + B.width) - min A.x B.x,
        max (A.y + A.height) (B.y + B.height) - min A.y B.y⟩] := by
  have hsm : shouldMerge B A := by
    unfold shouldMerge
    rw [overlapArea_comm B A]
    exact Or.symm hover
  have h1 : mergeDirtyRegions [A, B] = [unionRegion B A] := by
    simp [mergeDirtyRegions, mergeStep, mergeInto, if_pos hsm]
  rw [h1]
  unfold unionRegion
  rw [min_comm B.x A.x, min_comm B.y A.y, max_comm (B.x + B.width),
    max_comm (B.y + B.height)]

/-- Witness for claim C2 at two concrete 4-by-4 boxes overlapping on a
3-by-3 square (9 > 8 = half of either area). -/
theorem claim_c2_witness :
    mergeDirtyRegions [⟨0, 0, 4, 4⟩, ⟨1, 1, 4, 4⟩] = [⟨0, 0, 5, 5⟩] := by
  have h := claim_c2_merge_two_overlapping ⟨0, 0, 4, 4⟩ ⟨1, 1, 4, 4⟩
    (by norm_num) (by norm_num)
    (Or.inl (by norm_num [overlapArea, regionArea]))
  rw [h]
  norm_num

/-- Counterexample to claim C3: the inputs (0,0,10,10) and (0,4,1000,6)
have non-negative extents and total area 6100, yet they merge (overlap 60 >
50 = half of the first box's area) into the single box (0,0,1000,10) of
area 10000, so the output area sum exceeds the input area sum. -/
theorem claim_c3_counterexample :
    (∀ r ∈ [(⟨0, 0, 10, 10⟩ : DirtyRegion), ⟨0, 4, 1000, 6⟩],
        0 ≤ r.width ∧ 0 ≤ r.height) ∧
      ¬ sumArea (mergeDirtyRegions [⟨0, 0, 10, 10⟩, ⟨0, 4, 1000, 6⟩]) ≤
          sumArea [⟨0, 0, 10, 10⟩, ⟨0, 4, 1000, 6⟩] := by
  constructor
  · intro r hr
    rcases List.mem_cons.mp hr with h | hr
    · subst h; norm_num
    rcases List.mem_cons.mp hr with h | hr
    · subst h; norm_num
    exact absurd hr (List.not_mem_nil r)
  · have h : mergeDirtyRegions [(⟨0, 0, 10, 10⟩ : DirtyRegion), ⟨0, 4, 1000, 6⟩] =
        [⟨0, 0, 1000, 10⟩] := by
      norm_num [mergeDirtyRegions, mergeStep, mergeInto, shouldMerge,
        overlapArea, regionArea, unionRegion]
    rw [h]
    norm_num [sumArea, regionArea]

/-- Claim C3 (amended): every input region with non-negative extents is
fully contained in some output region of the merge pass; the area-sum
inequality of the original claim is dropped (refuted by the
counterexample). -/
theorem claim_c3_amended (regions : List DirtyRegion)
    (hnn : ∀ r ∈ regions, 0 ≤ r.width ∧ 0 ≤ r.height) :
    ∀ r ∈ regions, ∃ m ∈ mergeDirtyRegions regions, containsRegion m r := by
  intro r hr
  unfold mergeDirtyRegions
  by_cases hlen : regions.length ≤ 1
  · rw [if_pos hlen]
    exact ⟨r, hr, containsRegion_refl r⟩
  · rw [if_neg hlen]
    exact (foldl_mergeStep_cover regions []).2 r hr

/-- Witness for claim C3 (amended) on a concrete two-region input. -/
theorem claim_c3_witness :
    ∃ m ∈ mergeDirtyRegions [(⟨0, 0, 10, 10⟩ : DirtyRegion), ⟨0, 4, 1000, 6⟩],
      containsRegion m ⟨0, 4, 1000, 6⟩ := by
  refine claim_c3_amended [⟨0, 0, 10, 10⟩, ⟨0, 4, 1000, 6⟩] ?_ _ ?_
  · intro r hr
    rcases List.mem_cons.mp hr with h | hr
    · subst h; norm_num
    rcases List.mem_cons.mp hr with h | hr
    · subst h; norm_num
    exact absurd hr (List.not_mem_nil r)
  · exact List.mem_cons_of_mem _ (List.mem_cons_self _ _)

/-- Counterexample to claim C5: the empty override `{}` with requested
count 12 resolves blobCount to 12 (the requested count), not to the
medium-tier default min 9 12 = 9. -/
theorem claim_c5_counterexample :
    qualitySettings (some {}) false .high 12 = ⟨12, 30, 3⟩ ∧
      (12 : ℕ) ≠ min 9 12 :=
  ⟨rfl, by decide⟩

/-- Claim C5 (amended): with an explicit override, each field comes from
the override when present; otherwise frameRate and blurAmount fall back to
the medium-tier defaults (30, 3), while blobCount falls back to the
requested count `n` — never to a tier-derived value. -/
theorem claim_c5_amended (p : PerformanceSettings) (loading : Bool)
    (tier : PerformanceTier) (n : ℕ) :
    (∀ k, p.blobCount = some k →
      (qualitySettings (some p) loading tier n).blobCount = k) ∧
    (p.blobCount = none →
      (qualitySettings (some p) loading tier n).blobCount = n) ∧
    (∀ k, p.frameRate = some k →
      (qualitySettings (some p) loading tier n).frameRate = k) ∧
    (p.frameRate = none →
      (qualitySettings (some p) loading tier n).frameRate =
        ANIMATION_CONFIG.frameRates.medium) ∧
    (∀ k, p.blurAmount = some k →
      (qualitySettings (some p) loading tier n).blurAmount = k) ∧
    (p.blurAmount = none →
      (qualitySettings (some p) loading tier n).blurAmount =
        ANIMATION_CONFIG.blurAmounts.medium) := by
  refine ⟨fun k hk => ?_, fun hk => ?_, fun k hk => ?_, fun hk => ?_,
    fun k hk => ?_, fun hk => ?_⟩ <;>
    simp [qualitySettings, hk]

/-- Witness for claim C5 (amended): an override with blobCount 3 and
blurAmount 7 but no frameRate, during loading on the low tier. -/
theorem claim_c5_witness :
    (qualitySettings (some ⟨none, some 3, none, some 7⟩) true .low 12).blobCount = 3 ∧
      (qualitySettings (some ⟨none, some 3, none, some 7⟩) true .low 12).frameRate = 30 ∧
      (qualitySettings (some ⟨none, some 3, none, some 7⟩) true .low 12).blurAmount = 7 := by
  have h := claim_c5_amended ⟨none, some 3, none, some 7⟩ true .low 12
  exact ⟨h.1 3 rfl, h.2.2.2.1 rfl, h.2.2.2.2.1 7 rfl⟩

/-- Claim C10: while tier detection is still loading, a supplied override
still determines the result: the resolution equals the per-field
override resolution (with its fallbacks) and coincides with the resolution
after loading finishes — the override branch shadows the pending-detection
branch. -/
theorem claim_c10_override_beats_loading (p : PerformanceSettings)
    (tier : PerformanceTier) (n : ℕ) :
    qualitySettings (some p) true tier n =
        ⟨p.blobCount.getD n, p.frameRate.getD 30, p.blurAmount.getD 3⟩ ∧
      qualitySettings (some p) true tier n =
        qualitySettings (some p) false tier n :=
  ⟨rfl, rfl⟩

/-- Boolean test that the first character list is a prefix of the second. -/
def listPrefixOf : List Char → List Char → Bool
  | [], _ => true
  | _ :: _, [] => false
  | a :: as, b :: bs => a == b && listPrefixOf as bs

/-- Boolean test that the second character list occurs contiguously inside
the first. -/
def listContainsSub : List Char → List Char → Bool
  | [], pat => pat.isEmpty
  | s@(_ :: rest), pat => listPrefixOf pat s || listContainsSub rest pat

/-- JavaScript `s.includes(pat)`: `pat` occurs as a contiguous substring of
`s`. -/
def strIncludes (s pat : String) : Bool := listContainsSub s.toList pat.toList

example : strIncludes "NVIDIA GeForce RTX 3080" "GeForce" = true := by decide
example : strIncludes "Mali-G78" "M1" = false := by decide

/-- The renderer-string heuristic of `detectGPUSimple`
(`src/utils/performance-detection.ts`, lines 26-38): Intel / HD Graphics ↦ 1,
AMD / Radeon ↦ 2, NVIDIA / GeForce ↦ 3, Apple / M1 / M2 / M3 ↦ 3, and any
other string ↦ 2 ("Default to medium"). -/
def classifyRenderer (renderer : String) : ℕ :=
  if strIncludes renderer "Intel" || strIncludes renderer "HD Graphics" then 1
  else if strIncludes renderer "AMD" || strIncludes renderer "Radeon" then 2
  else if strIncludes renderer "NVIDIA" || strIncludes renderer "GeForce" then 3
  else if strIncludes renderer "Apple" || strIncludes renderer "M1" ||
      strIncludes renderer "M2" || strIncludes renderer "M3" then 3
  else 2

/-- The `detectGPUSimple` function of `src/utils/performance-detection.ts`
(lines 7-42), abstracted over whether a renderer string could be obtained:
`none` models every unavailable case (no window, no WebGL context, no debug
extension, or an exception), in which the function returns null; otherwise
the renderer string is classified by the substring heuristic. -/
def detectGPUSimple : Option String → Option ℕ
  | none => none
  | some renderer => some (classifyRenderer renderer)

/-- Recognition predicate: the renderer string matches at least one of the
ten descriptors the heuristic tests for. -/
def recognizedRenderer (renderer : String) : Bool :=
  ["Intel", "HD Graphics", "AMD", "Radeon", "NVIDIA", "GeForce",
    "Apple", "M1", "M2", "M3"].any (fun d => strIncludes renderer d)

/-- Classification following the spec's descriptor groups
(integrated/entry-level ↦ 1, mid-range ↦ 2, high-end or unified-memory ↦ 3)
with the amended default: a string matching no descriptor maps to 2. -/
def specGpuDescriptorTier (renderer : String) : ℕ :=
  if ["Intel", "HD Graphics"].any (fun d => strIncludes renderer d) then 1
  else if ["AMD", "Radeon"].any (fun d => strIncludes renderer d) then 2
  else if ["NVIDIA", "GeForce", "Apple", "M1", "M2", "M3"].any
      (fun d => strIncludes renderer d) then 3
  else 2

/-- The source heuristic agrees with the descriptor-group classification
everywhere. -/
theorem classifyRenderer_eq_descriptorTier (r : String) :
    classifyRenderer r = specGpuDescriptorTier r := by
  simp only [classifyRenderer, specGpuDescriptorTier, List.any_cons,
    List.any_nil, Bool.or_false]
  generalize strIncludes r "Intel" = b1
  generalize strIncludes r "HD Graphics" = b2
  generalize strIncludes r "AMD" = b3
  generalize strIncludes r "Radeon" = b4
  generalize strIncludes r "NVIDIA" = b5
  generalize strIncludes r "GeForce" = b6
  generalize strIncludes r "Apple" = b7
  generalize strIncludes r "M1" = b8
  generalize strIncludes r "M2" = b9
  generalize strIncludes r "M3" = b10
  revert b1 b2 b3 b4 b5 b6 b7 b8 b9 b10
  decide

/-- Counterexample to claim C4: the renderer string "Mali-G78" matches none
of the recognized descriptors, yet the heuristic classifies it as tier 2
rather than as unknown. -/
theorem claim_c4_counterexample :
    recognizedRenderer "Mali-G78" = false ∧
      detectGPUSimple (some "Mali-G78") = some 2 := by
  decide

/-- Claim C4 (amended): the classification maps integrated/entry-level
descriptors to 1, mid-range to 2, high-end or unified-memory to 3, and any
unmatched renderer string to the default tier 2; only an unavailable
renderer string yields unknown (`none`). -/
theorem claim_c4_amended :
    (∀ r : String, detectGPUSimple (some r) = some (specGpuDescriptorTier r)) ∧
      detectGPUSimple none = none :=
  ⟨fun r => congrArg some (classifyRenderer_eq_descriptorTier r), rfl⟩

/-- JavaScript division on the rational fragment: a zero denominator gives
a non-finite result (`none`). In `generateBlobs` the only zero-denominator
case in range is `0 / 0`, which is NaN in JavaScript. -/
def jsDiv (a b : ℚ) : Option ℚ := if b = 0 then none else some (a / b)

/-- The `scale` expression of `generateBlobs`
(`src/utils/canvas-helpers.ts`, lines 52-55):
`scaleRange.min + (1 - i / (count - 1)) * (scaleRange.max - scaleRange.min)`,
with NaN (from `0 / 0` when `count == 1`) propagating through the
surrounding arithmetic. -/
def blobScale (i count : ℕ) : Option ℚ :=
  match jsDiv (i : ℚ) ((count : ℚ) - 1) with
  | none => none
  | some q =>
      some (ANIMATION_CONFIG.scaleRange.min +
        (1 - q) *
          (ANIMATION_CONFIG.scaleRange.max - ANIMATION_CONFIG.scaleRange.min))

/-- The `InternalBlobData` record of `src/types`: the Path2D handle is
abstracted to the index of the chosen template path. -/
structure InternalBlobData where
  pathIndex : ℕ
  rotation : ℚ
  scale : Option ℚ
deriving DecidableEq

/-- The `generateBlobs` function of `src/utils/canvas-helpers.ts`
(lines 31-59), abstracted over the random draws: `pathChoice i` is the
template index drawn for blob `i`, and `rot i` its resolved initial
rotation (the `getPerBlobValue` result). The loop body builds one record
per index `i` in `[0, count)`. -/
def generateBlobs (count : ℕ) (pathChoice : ℕ → ℕ) (rot : ℕ → ℚ) :
    List InternalBlobData :=
  (List.range count).map (fun i => ⟨pathChoice i, rot i, blobScale i count⟩)

/-- Counterexample to claim C6: generating a single blob computes
`0 / 0` inside the scale ramp, so the scale is NaN (`none`), not
`scaleRange.max` as the claim's `n == 1` case states. -/
theorem claim_c6_counterexample :
    (generateBlobs 1 (fun _ => 0) (fun _ => 0)).map InternalBlobData.scale =
        [none] ∧
      (none : Option ℚ) ≠ some ANIMATION_CONFIG.scaleRange.max := by
  constructor
  · have hr1 : List.range 1 = [0] := by decide
    simp only [generateBlobs, hr1, List.map_cons, List.map_nil]
    norm_num [blobScale, jsDiv]
  · simp

/-- Claim C6 (amended): for every count `n ≥ 2` and index `i < n` the
generated blob's scale is exactly
`scaleMin + (1 - i/(n-1)) * (scaleMax - scaleMin)`; for `n = 1` the
division `0 / 0` makes the single blob's scale NaN rather than scaleMax. -/
theorem claim_c6_amended :
    (∀ (n i : ℕ) (pc : ℕ → ℕ) (rot : ℕ → ℚ), 2 ≤ n → i < n →
        (generateBlobs n pc rot).get? i =
          some ⟨pc i, rot i,
            some (ANIMATION_CONFIG.scaleRange.min +
              (1 - (i : ℚ) / ((n : ℚ) - 1)) *
                (ANIMATION_CONFIG.scaleRange.max -
                  ANIMATION_CONFIG.scaleRange.min))⟩) ∧
      ∀ (pc : ℕ → ℕ) (rot : ℕ → ℚ),
        (generateBlobs 1 pc rot).map InternalBlobData.scale = [none] := by
  constructor
  · intro n i pc rot hn hi
    have hden : ((n : ℚ) - 1) ≠ 0 := by
      have h2 : (2 : ℚ) ≤ (n : ℚ) := by exact_mod_cast hn
      linarith
    unfold generateBlobs
    rw [List.get?_map, List.get?_range hi, Option.map_some']
    unfold blobScale jsDiv
    rw [if_neg hden]
  · intro pc rot
    have hr1 : List.range 1 = [0] := by decide
    simp only [generateBlobs, hr1, List.map_cons, List.map_nil]
    norm_num [blobScale, jsDiv]

/-- Witness for claim C6 (amended): the second of six blobs has scale
1/5 + (1 - 1/5) * (17/10 - 1/5) = 7/5. -/
theorem claim_c6_witness :
    (generateBlobs 6 (fun _ => 0) (fun _ => 0)).get? 1 =
      some ⟨0, 0, some (7/5)⟩ := by
  have h := claim_c6_amended.1 6 1 (fun _ => 0) (fun _ => 0)
    (by norm_num) (by norm_num)
  rw [h]
  norm_num [ANIMATION_CONFIG]

/-- Counterexample to claim C7: six blobs get the scales
[17/10, 7/5, 11/10, 4/5, 1/2, 1/5] (step 3/10), not the claimed
[1.7, 1.5, 1.3, 1.1, 0.9, 0.7]: already at index 1 the actual 7/5 differs
from the claimed 3/2. -/
theorem claim_c7_counterexample :
    (generateBlobs 6 (fun _ => 0) (fun _ => 0)).map InternalBlobData.scale =
        [some (17/10), some (7/5), some (11/10), some (4/5), some (1/2),
          some (1/5)] ∧
      (7/5 : ℚ) ≠ 3/2 := by
  have hr : List.range 6 = [0, 1, 2, 3, 4, 5] := by decide
  constructor
  · simp only [generateBlobs, hr, List.map_cons, List.map_nil]
    norm_num [blobScale, jsDiv, ANIMATION_CONFIG]
  · norm_num

/-- Claim C7 (amended): generating exactly 6 blobs (any shape choices, any
rotations) under scaleMin = 1/5 and scaleMax = 17/10 yields the scale
factors exactly [17/10, 7/5, 11/10, 4/5, 1/2, 1/5] in index order. -/
theorem claim_c7_amended (pc : ℕ → ℕ) (rot : ℕ → ℚ) :
    (generateBlobs 6 pc rot).map InternalBlobData.scale =
      [some (17/10), some (7/5), some (11/10), some (4/5), some (1/2),
        some (1/5)] := by
  have hr : List.range 6 = [0, 1, 2, 3, 4, 5] := by decide
  simp only [generateBlobs, hr, List.map_cons, List.map_nil]
  norm_num [blobScale, jsDiv, ANIMATION_CONFIG]

/-- The `calculateBlobBounds` function of `src/utils/dirty-regions.ts`
(lines 13-36): `size` is the half-extent `max(scale-product * 50, 20)`,
the box spans `size` to each side of the position plus 10 padding
(`totalSize = size * 2 + padding * 2`), the origin is clamped to 0 and the
extents are clamped to the surface edge. -/
def calculateBlobBounds (blobScaleFactor scale px py canvasWidth canvasHeight : ℚ) :
    DirtyRegion :=
  let padding := ANIMATION_CONFIG.dirtyRegion.padding
  let size := max
    (blobScaleFactor * scale * ANIMATION_CONFIG.dirtyRegion.blobSizeMultiplier)
    ANIMATION_CONFIG.dirtyRegion.minBlobSize
  let totalSize := size * 2 + padding * 2
  let x := max 0 (px - size - padding)
  let y := max 0 (py - size - padding)
  ⟨x, y, min totalSize (canvasWidth - x), min totalSize (canvasHeight - y)⟩

/-- Box that claim C8's words describe: a square whose full side is
`max(scaleProduct * 50, 20)` centered on the position, expanded by 10
padding on all sides, then clamped like the source. Compared against the
source definition `calculateBlobBounds`. -/
def claimedBlobBounds (blobScaleFactor scale px py canvasWidth canvasHeight : ℚ) :
    DirtyRegion :=
  let side := max (blobScaleFactor * scale * 50) 20
  let x := max 0 (px - side / 2 - 10)
  let y := max 0 (py - side / 2 - 10)
  ⟨x, y, min (side + 20) (canvasWidth - x), min (side + 20) (canvasHeight - y)⟩

/-- Closed form of `calculateBlobBounds`. -/
theorem calculateBlobBounds_eq (b s px py W H : ℚ) :
    calculateBlobBounds b s px py W H =
      ⟨max 0 (px - max (b * s * 50) 20 - 10),
        max 0 (py - max (b * s * 50) 20 - 10),
        min (2 * max (b * s * 50) 20 + 20)
          (W - max 0 (px - max (b * s * 50) 20 - 10)),
        min (2 * max (b * s * 50) 20 + 20)
          (H - max 0 (py - max (b * s * 50) 20 - 10))⟩ := by
  simp only [calculateBlobBounds, ANIMATION_CONFIG, DirtyRegion.mk.injEq]
  norm_num
  constructor <;> ring_nf

/-- Counterexample to claim C8: with scale product 1 at position (500,500)
on a 1000-by-1000 surface, the code's box is (440,440,120,120) — its side
is twice `max(scaleProduct * 50, 20)` plus padding — whereas the claimed
square-of-side-max(...) box is (465,465,70,70); moreover at the off-surface
position (2000,2000) on a 100-by-100 surface the code's width is -1840,
violating the claimed non-negativity. -/
theorem claim_c8_counterexample :
    calculateBlobBounds 1 1 500 500 1000 1000 = ⟨440, 440, 120, 120⟩ ∧
      claimedBlobBounds 1 1 500 500 1000 1000 = ⟨465, 465, 70, 70⟩ ∧
      calculateBlobBounds 1 1 500 500 1000 1000 ≠
        claimedBlobBounds 1 1 500 500 1000 1000 ∧
      (calculateBlobBounds 1 1 2000 2000 100 100).width < 0 := by
  norm_num [calculateBlobBounds, claimedBlobBounds, ANIMATION_CONFIG,
    DirtyRegion.mk.injEq]

/-- Claim C8 (amended): with `S = max(scaleProduct * 50, 20)` as the
half-side, the box is the square of side `2 * S` centered on the position,
expanded by the fixed 10 padding, with origin clamped to ≥ 0 and the far
edges clamped to the surface; the origin is never negative, the box never
extends past the surface edge, and width/height are non-negative whenever
the clamped origin still lies on the surface (far off-surface positions
produce negative widths/heights). -/
theorem claim_c8_amended (b s px py W H : ℚ) (hW : 0 < W) (hH : 0 < H)
    (r : DirtyRegion) (hr : r = calculateBlobBounds b s px py W H) :
    r.x = max 0 (px - max (b * s * 50) 20 - 10) ∧
    r.y = max 0 (py - max (b * s * 50) 20 - 10) ∧
    r.width = min (2 * max (b * s * 50) 20 + 20) (W - r.x) ∧
    r.height = min (2 * max (b * s * 50) 20 + 20) (H - r.y) ∧
    0 ≤ r.x ∧ 0 ≤ r.y ∧ r.x + r.width ≤ W ∧ r.y + r.height ≤ H ∧
    (r.x ≤ W → 0 ≤ r.width) ∧ (r.y ≤ H → 0 ≤ r.height) := by
  subst hr
  rw [calculateBlobBounds_eq]
  have h20 : (20 : ℚ) ≤ max (b * s * 50) 20 := le_max_right _ _
  have hx : (0 : ℚ) ≤ max 0 (px - max (b * s * 50) 20 - 10) := le_max_left _ _
  have hy : (0 : ℚ) ≤ max 0 (py - max (b * s * 50) 20 - 10) := le_max_left _ _
  have hminW := min_le_right (2 * max (b * s * 50) 20 + 20)
    (W - max 0 (px - max (b * s * 50) 20 - 10))
  have hminH := min_le_right (2 * max (b * s * 50) 20 + 20)
    (H - max 0 (py - max (b * s * 50) 20 - 10))
  refine ⟨rfl, rfl, rfl, rfl, hx, hy, by linarith, by linarith, ?_, ?_⟩
  · intro hxW
    exact le_min (by linarith) (by linarith)
  · intro hyH
    exact le_min (by linarith) (by linarith)

/-- Witness for claim C8 (amended) at scale product 1, position (500,500),
surface 1000 by 1000. -/
theorem claim_c8_witness :
    (calculateBlobBounds 1 1 500 500 1000 1000).x = 440 ∧
      0 ≤ (calculateBlobBounds 1 1 500 500 1000 1000).width := by
  have h := claim_c8_amended 1 1 500 500 1000 1000 (by norm_num)
    (by norm_num) (calculateBlobBounds 1 1 500 500 1000 1000) rfl
  constructor
  · rw [h.1]
    norm_num
  · exact h.2.2.2.2.2.2.2.2.1
      (by norm_num [calculateBlobBounds, ANIMATION_CONFIG])

/-- Abstract state of the render-loop effect of `AnimatedBackground.tsx`:
whether a `requestAnimationFrame` callback is currently scheduled, how many
frame bodies have run, the sizes of the three instance caches, and whether
the resize listener and debounce timer are active. -/
structure RenderLoopState where
  pendingCallback : Bool
  framesExecuted : ℕ
  pathCacheSize : ℕ
  gradientCacheSize : ℕ
  colorCacheSize : ℕ
  resizeListenerAttached : Bool
  debounceTimerSet : Bool
deriving DecidableEq

/-- The render-loop effect cleanup of `AnimatedBackground.tsx`
(lines 682-697): removes the resize listener, clears the debounce timeout
and clears the Path2D pool, gradient cache and color cache. The source
contains no `cancelAnimationFrame` call, so a pending scheduled callback
stays scheduled. -/
def effectCleanup (s : RenderLoopState) : RenderLoopState :=
  { s with
    resizeListenerAttached := false
    debounceTimerSet := false
    pathCacheSize := 0
    gradientCacheSize := 0
    colorCacheSize := 0 }

/-- Firing a scheduled `render` callback (`AnimatedBackground.tsx`, lines
417-679): whether the frame is throttled (line 423) or fully drawn
(line 678), the callback re-schedules itself via `requestAnimationFrame`;
the frame body counts as executed only when the frame interval elapsed. -/
def fireScheduledCallback (s : RenderLoopState) (frameDue : Bool) :
    RenderLoopState :=
  if s.pendingCallback then
    if frameDue then
      { s with framesExecuted := s.framesExecuted + 1, pendingCallback := true }
    else
      { s with pendingCallback := true }
  else s

/-- Claim C9 evaluated at the failing input: from a state with a scheduled
callback (always the case once the loop started), the cleanup is idempotent
and clears all three caches, but the scheduled callback is still pending
afterwards and firing it executes another frame body and re-schedules —
the cleanup never cancels the animation frame, contradicting the claim
that no frame executes after stop(). -/
theorem claim_c9_frame_after_cleanup :
    effectCleanup (effectCleanup ⟨true, 3, 5, 6, 7, true, true⟩) =
        effectCleanup ⟨true, 3, 5, 6, 7, true, true⟩ ∧
      effectCleanup ⟨true, 3, 5, 6, 7, true, true⟩ =
        ⟨true, 3, 0, 0, 0, false, false⟩ ∧
      (fireScheduledCallback (effectCleanup ⟨true, 3, 5, 6, 7, true, true⟩)
            true).framesExecuted = 4 ∧
      (fireScheduledCallback (effectCleanup ⟨true, 3, 5, 6, 7, true, true⟩)
            true).pendingCallback = true := by
  decide

end BlobsBg
